import Mathlib

/-!
Shallow embedding of the return/projection engine of `src/streamlit_app.py`
(a single-page stock portfolio dashboard).  Prices and clock times are
modelled as exact rationals, the CPython string `hash` (process-seeded,
hence unspecified) as an arbitrary environment `String → ℤ`, network
effects as explicit `Except`-valued response inputs, and the wall clock of
the rate limiter as explicit time arguments.
-/

namespace Portfolio

/-- A price series as returned by `get_stock_history` and
`generate_mock_history` (the two columns of the pandas DataFrame built at
lines 167-170 and 195-198 of `streamlit_app.py`): a list of dates
(modelled as integer day numbers) and a list of prices.  The frame has no
further columns; in particular there is no flag marking synthetic data. -/
@[ext]
structure Series where
  dates : List ℤ
  prices : List ℚ
deriving DecidableEq

/-- Hash fallback of `get_stock_price(symbol, use_mock=True)` (line 121):
`round(100 + hash(symbol) % 200, 2)`.  The value is integral, so the
two-decimal rounding is the identity; Python `%` on a positive modulus
agrees with `Int.emod`. -/
def hash_fallback_price (hv : String → ℤ) (symbol : String) : ℚ :=
  ((100 + hv symbol % 200 : ℤ) : ℚ)

/-- The STOCK_SYMBOLS table (lines 79-83) as ordered
(key, symbol, mock price) entries. -/
def STOCK_SYMBOLS : List (String × String × ℚ) :=
  [("NDQ", "NDQ.AX", 32.50), ("IVV", "IVV", 485.75), ("CBA", "CBA.AX", 112.30)]

/-- The TECH_STOCKS table (lines 85-96) as ordered
(key, name, mock price) entries. -/
def TECH_STOCKS : List (String × String × ℚ) :=
  [("AAPL", "Apple", 185.50), ("MSFT", "Microsoft", 375.25), ("GOOGL", "Google", 138.75),
   ("AMZN", "Amazon", 155.20), ("META", "Meta", 345.60), ("TSLA", "Tesla", 245.80),
   ("NVDA", "NVIDIA", 485.30), ("AMD", "AMD", 128.45), ("INTC", "Intel", 44.20),
   ("ADBE", "Adobe", 565.40)]

/-- Mock branch of `get_stock_price` (lines 113-121): the first
STOCK_SYMBOLS entry whose inner symbol field equals the requested symbol,
else the first TECH_STOCKS entry whose key equals it, else the hash
fallback; `List.find?` mirrors the two sequential dict loops. -/
def get_stock_price_mock (hv : String → ℤ) (symbol : String) : ℚ :=
  match STOCK_SYMBOLS.find? (fun e => e.2.1 == symbol) with
  | some e => e.2.2
  | none =>
    match TECH_STOCKS.find? (fun e => e.1 == symbol) with
    | some e => e.2.2
    | none => hash_fallback_price hv symbol

/-- Dates of `generate_mock_history` (lines 179-182): `pd.date_range` from
`now - days` to `now` inclusive, one point per day, hence `days + 1`
points. -/
def mock_dates (now : ℤ) (days : ℕ) : List ℤ :=
  (List.range (days + 1)).map (fun i : ℕ => now - days + (i : ℤ))

/-- Price at index `i` of the mock walk of `generate_mock_history`
(lines 188-193): index 0 is the base price; each later price moves by
`prices[-1] * 0.02 * (hash(symbol + str(i)) % 200 - 100) / 100` and is
floored at `base_price * 0.5`. -/
def mock_price_at (hv : String → ℤ) (symbol : String) (base : ℚ) : ℕ → ℚ
  | 0 => base
  | i + 1 =>
    let prev := mock_price_at hv symbol base i
    let change := prev * 0.02 * ((hv (symbol ++ toString (i + 1)) % 200 - 100 : ℤ) : ℚ) / 100
    max (prev + change) (base * 0.5)

/-- `generate_mock_history(symbol, days)` (lines 177-198), including the
final `prices[:len(dates)]` truncation. -/
def generate_mock_history (hv : String → ℤ) (now : ℤ) (symbol : String) (days : ℕ) : Series :=
  let dates := mock_dates now days
  let base := get_stock_price_mock hv symbol
  let prices := (List.range (days + 1)).map (mock_price_at hv symbol base)
  ⟨dates, prices.take dates.length⟩

/-- Parse branch of `get_stock_history` (lines 158-170): take the first
`days` entries of the response time series (the API lists newest first),
then reverse both columns into oldest-first order. -/
def parse_history (entries : List (ℤ × ℚ)) (days : ℕ) : Series :=
  let taken := entries.take days
  ⟨(taken.map Prod.fst).reverse, (taken.map Prod.snd).reverse⟩

/-- `get_stock_history(symbol, days)` (lines 144-175).  The response is
modelled as `Except Unit (Option (List (ℤ × ℚ)))`: `Except.error` is any
raised exception (network failure, timeout, malformed JSON, unparseable
date or price), `Except.ok none` a body without the daily time-series key,
and `Except.ok (some entries)` a well formed body. -/
def get_stock_history (hv : String → ℤ) (now : ℤ) (symbol : String) (days : ℕ)
    (resp : Except Unit (Option (List (ℤ × ℚ)))) : Series :=
  match resp with
  | Except.ok (some entries) => parse_history entries days
  | Except.ok none => generate_mock_history hv now symbol days
  | Except.error _ => generate_mock_history hv now symbol days

/-- Live path of `get_stock_price(symbol)` (lines 123-142): a well formed
quote body yields its parsed price; anything else (missing or empty quote
object, missing price field, raised exception) falls back to the mock
branch. -/
def get_stock_price (hv : String → ℤ) (symbol : String)
    (resp : Except Unit (Option ℚ)) : ℚ :=
  match resp with
  | Except.ok (some p) => p
  | Except.ok none => get_stock_price_mock hv symbol
  | Except.error _ => get_stock_price_mock hv symbol

/-- `calculate_expected_growth(current_price, days)` (lines 200-204):
`current_price * (1 + growth_rate * (days / 365))` with the hard coded
local `growth_rate = 0.08`. -/
def calculate_expected_growth (current_price : ℚ) (days : ℚ) : ℚ :=
  let growth_rate := (0.08 : ℚ)
  current_price * (1 + growth_rate * (days / 365))

/-- Expected price trace of one dashboard holding (line 304):
`[calculate_expected_growth(current_price, i) for i in range(0, 366, 30)]`,
that is the 13 offsets 0, 30, ..., 360.  The `history` frame fetched at
line 290 is in scope at this point in the source but is not read by the
computation; it is kept as an explicit argument here so that this
independence is expressible as a theorem. -/
def dashboard_expected_prices (history : List ℚ) (current_price : ℚ) : List ℚ :=
  (List.range' 0 13 30).map (fun i : ℕ => calculate_expected_growth current_price (i : ℚ))

/-- The per-holding projection trace of the dashboard chart (lines
303-304): the anchor dates
`[history['date'].iloc[-1] + timedelta(days=i) for i in range(0, 366, 30)]`
paired with the expected prices of line 304.  On an empty history frame
`.iloc[-1]` at line 303 raises an uncaught IndexError before line 304
runs, modelled as `none`; on a nonempty frame the anchor is the last
historical date. -/
def dashboard_projection_trace (s : Series) (current_price : ℚ) : Option (List ℤ × List ℚ) :=
  match s.dates.getLast? with
  | none => none
  | some d =>
    some ((List.range' 0 13 30).map (fun i : ℕ => d + (i : ℤ)),
      dashboard_expected_prices s.prices current_price)

/-- Rate limiter state persisted in the session (lines 56-60):
`last_api_call` and `api_call_count`. -/
structure RLState where
  last_api_call : ℚ
  api_call_count : ℕ
deriving DecidableEq

/-- `rate_limit_api()` (lines 98-109).  `t1` is the `time.time()` reading
on entry; if fewer than 12 seconds elapsed since the recorded last call the
function sleeps for the remainder; `drift` is the extra nonnegative time
between the end of that (possibly empty) sleep and the second `time.time()`
reading stored as the new `last_api_call` (sleep never returns early and
the clock is monotone within the call). -/
def rate_limit_api (s : RLState) (t1 drift : ℚ) : RLState :=
  let time_since_last_call := t1 - s.last_api_call
  let slept := if time_since_last_call < 12 then 12 - time_since_last_call else 0
  ⟨t1 + slept + drift, s.api_call_count + 1⟩

/-- Modelled from the spec: per-step log returns of a price series,
`logret[i] = ln(price[i] / price[i-1])` (spec section 4.1).  The source
file contains no such computation. -/
noncomputable def logrets (s : List ℝ) : List ℝ :=
  (s.zip s.tail).map (fun q => Real.log (q.2 / q.1))

/-- Modelled from the spec: `annualized_return(series)` of spec section
4.1, an operation the source file does not contain (its projection uses a
hard coded rate instead).  Undefined (`none`) below two points, else
`exp(mean(logret) * 252) - 1`. -/
noncomputable def annualized_return (s : List ℝ) : Option ℝ :=
  if s.length < 2 then none
  else
    let lr := logrets s
    some (Real.exp (lr.sum / (lr.length : ℝ) * 252) - 1)

/-- The date column of a mock history has `days + 1` entries. -/
theorem mock_dates_length (now : ℤ) (days : ℕ) : (mock_dates now days).length = days + 1 := by
  unfold mock_dates
  rw [List.length_map, List.length_range]

/-- Unfolded form of the prices of a mock history: the `prices[:len(dates)]`
truncation is the identity because both lists have `days + 1` entries. -/
theorem generate_mock_history_prices (hv : String → ℤ) (now : ℤ) (symbol : String) (days : ℕ) :
    (generate_mock_history hv now symbol days).prices =
      (List.range (days + 1)).map (mock_price_at hv symbol (get_stock_price_mock hv symbol)) := by
  show ((List.range (days + 1)).map
      (mock_price_at hv symbol (get_stock_price_mock hv symbol))).take
      (mock_dates now days).length = _
  rw [show (mock_dates now days).length =
      ((List.range (days + 1)).map
        (mock_price_at hv symbol (get_stock_price_mock hv symbol))).length by
    rw [mock_dates_length, List.length_map, List.length_range], List.take_length]

/-- The date column of a mock history is its `mock_dates`. -/
theorem generate_mock_history_dates (hv : String → ℤ) (now : ℤ) (symbol : String) (days : ℕ) :
    (generate_mock_history hv now symbol days).dates = mock_dates now days := rfl

/-- The price column of a mock history has `days + 1` entries. -/
theorem generate_mock_history_prices_length (hv : String → ℤ) (now : ℤ) (symbol : String)
    (days : ℕ) : (generate_mock_history hv now symbol days).prices.length = days + 1 := by
  rw [generate_mock_history_prices, List.length_map, List.length_range]

/-- The price column of a mock history is never empty. -/
theorem generate_mock_history_prices_ne_nil (hv : String → ℤ) (now : ℤ) (symbol : String)
    (days : ℕ) : (generate_mock_history hv now symbol days).prices ≠ [] := by
  have hl := generate_mock_history_prices_length hv now symbol days
  intro hc
  rw [hc] at hl
  simp at hl

/-- The hash fallback price lies in the interval from 100 inclusive to 300
exclusive. -/
theorem hash_fallback_price_bounds (hv : String → ℤ) (symbol : String) :
    100 ≤ hash_fallback_price hv symbol ∧ hash_fallback_price hv symbol < 300 := by
  unfold hash_fallback_price
  have hlow : (100 : ℤ) ≤ 100 + hv symbol % 200 := by omega
  have hhigh : 100 + hv symbol % 200 < 300 := by omega
  exact ⟨by exact_mod_cast hlow, by exact_mod_cast hhigh⟩

/-- Every branch of the mock price table returns a strictly positive price. -/
theorem get_stock_price_mock_pos (hv : String → ℤ) (symbol : String) :
    0 < get_stock_price_mock hv symbol := by
  have hb := (hash_fallback_price_bounds hv symbol).1
  unfold get_stock_price_mock
  rcases h1 : STOCK_SYMBOLS.find? (fun e => e.2.1 == symbol) with - | e
  · rw [h1]
    rcases h2 : TECH_STOCKS.find? (fun e => e.1 == symbol) with - | f
    · rw [h2]
      linarith
    · rw [h2]
      have hm := List.mem_of_find?_eq_some h2
      simp only [TECH_STOCKS, List.mem_cons, List.not_mem_nil, or_false] at hm
      rcases hm with rfl | rfl | rfl | rfl | rfl | rfl | rfl | rfl | rfl | rfl <;> norm_num
  · rw [h1]
    have hm := List.mem_of_find?_eq_some h1
    simp only [STOCK_SYMBOLS, List.mem_cons, List.not_mem_nil, or_false] at hm
    rcases hm with rfl | rfl | rfl <;> norm_num

/-- Every point of the mock walk is at least half of the base price. -/
theorem mock_price_at_ge_half (hv : String → ℤ) (symbol : String) {base : ℚ}
    (hb : 0 ≤ base) (i : ℕ) : base / 2 ≤ mock_price_at hv symbol base i := by
  cases i with
  | zero =>
    show base / 2 ≤ base
    linarith
  | succ n =>
    show base / 2 ≤ max _ (base * 0.5)
    exact le_trans (le_of_eq (by ring)) (le_max_right _ _)

/-- Every price of a generated mock history is at least half of the base
mock price of its symbol. -/
theorem mock_history_mem_ge_half (hv : String → ℤ) (now : ℤ) (symbol : String) (days : ℕ)
    {p : ℚ} (hp : p ∈ (generate_mock_history hv now symbol days).prices) :
    get_stock_price_mock hv symbol / 2 ≤ p := by
  rw [generate_mock_history_prices] at hp
  obtain ⟨i, -, rfl⟩ := List.mem_map.mp hp
  exact mock_price_at_ge_half hv symbol (le_of_lt (get_stock_price_mock_pos hv symbol)) i

/-- C7: for every symbol, hash environment and requested number of days,
the first point of the synthetic series is the base mock price itself and
every price in the series is at least 50 percent of that base price. -/
theorem mock_history_floor (hv : String → ℤ) (now : ℤ) (symbol : String) (days : ℕ) :
    (generate_mock_history hv now symbol days).prices.head? =
      some (get_stock_price_mock hv symbol) ∧
    ∀ p ∈ (generate_mock_history hv now symbol days).prices,
      get_stock_price_mock hv symbol / 2 ≤ p := by
  constructor
  · rw [generate_mock_history_prices, List.range_succ_eq_map]
    rfl
  · intro p hp
    exact mock_history_mem_ge_half hv now symbol days hp

/-- Witness for C7 at a concrete input: symbol IVV, all hash values 0, a
two-point series; the first point is the 485.75 base price and the second
point 476.035 observes the floor. -/
theorem mock_history_floor_witness :
    ((generate_mock_history (fun _ => 0) 0 "IVV" 1).prices.head? =
      some (get_stock_price_mock (fun _ => 0) "IVV") ∧
      get_stock_price_mock (fun _ => 0) "IVV" / 2 ≤ (476.035 : ℚ)) := by
  have hbase : get_stock_price_mock (fun _ => 0) "IVV" = 485.75 := by
    simp +decide [get_stock_price_mock, STOCK_SYMBOLS, TECH_STOCKS, List.find?]
  refine ⟨(mock_history_floor (fun _ => 0) 0 "IVV" 1).1,
    (mock_history_floor (fun _ => 0) 0 "IVV" 1).2 476.035 ?_⟩
  rw [generate_mock_history_prices, hbase]
  norm_num [List.range_succ, mock_price_at, max_def]

/-- C10: every mock price is strictly positive: the table prices are
positive constants, the hash fallback lies in the interval from 100
inclusive to 300 exclusive, and every price of the synthetic history is
positive as well. -/
theorem mock_prices_positive (hv : String → ℤ) (now : ℤ) (symbol : String) (days : ℕ) :
    0 < get_stock_price_mock hv symbol ∧
    (100 ≤ hash_fallback_price hv symbol ∧ hash_fallback_price hv symbol < 300) ∧
    ∀ p ∈ (generate_mock_history hv now symbol days).prices, 0 < p := by
  refine ⟨get_stock_price_mock_pos hv symbol, hash_fallback_price_bounds hv symbol, ?_⟩
  intro p hp
  have h1 := mock_history_mem_ge_half hv now symbol days hp
  have h2 := get_stock_price_mock_pos hv symbol
  linarith

/-- Witness for C10 at a concrete input: an unknown symbol ZZZ with all
hash values 0, whose fallback base price is 100, and the first point of its
one-day synthetic history. -/
theorem mock_prices_positive_witness :
    0 < get_stock_price_mock (fun _ => 0) "ZZZ" ∧
    (100 ≤ hash_fallback_price (fun _ => 0) "ZZZ" ∧
      hash_fallback_price (fun _ => 0) "ZZZ" < 300) ∧
    0 < (100 : ℚ) := by
  have hbase : get_stock_price_mock (fun _ => 0) "ZZZ" = 100 := by
    norm_num +decide [get_stock_price_mock, STOCK_SYMBOLS, TECH_STOCKS, List.find?,
      hash_fallback_price]
  refine ⟨(mock_prices_positive (fun _ => 0) 0 "ZZZ" 1).1,
    (mock_prices_positive (fun _ => 0) 0 "ZZZ" 1).2.1,
    (mock_prices_positive (fun _ => 0) 0 "ZZZ" 1).2.2 100 ?_⟩
  rw [generate_mock_history_prices, hbase]
  norm_num [List.range_succ, mock_price_at, max_def]

/-- C8: a call through `rate_limit_api` records a new last-call time at
least 12 seconds after the previously recorded one (it sleeps off any
remainder of the 12 second window before proceeding) and increments the
call counter by one. -/
theorem rate_limit_api_spacing (s : RLState) (t1 drift : ℚ) (hd : 0 ≤ drift) :
    s.last_api_call + 12 ≤ (rate_limit_api s t1 drift).last_api_call ∧
    (rate_limit_api s t1 drift).api_call_count = s.api_call_count + 1 := by
  constructor
  · show s.last_api_call + 12 ≤
      t1 + (if t1 - s.last_api_call < 12 then 12 - (t1 - s.last_api_call) else 0) + drift
    split_ifs with h <;> linarith
  · rfl

/-- Witness for C8 at a concrete input: previous call recorded at time 0,
current reading 5, no drift; the new recorded time is at least 12 and the
counter moves from 0 to 1. -/
theorem rate_limit_api_spacing_witness :
    (⟨0, 0⟩ : RLState).last_api_call + 12 ≤ (rate_limit_api ⟨0, 0⟩ 5 0).last_api_call ∧
    (rate_limit_api ⟨0, 0⟩ 5 0).api_call_count = (⟨0, 0⟩ : RLState).api_call_count + 1 :=
  rate_limit_api_spacing ⟨0, 0⟩ 5 0 (by norm_num)

/-- C1 counterexample: with starting value 100 there is no daily factor at
all (rational or irrational, hence in particular not `(1 + r) ^ (1 / 365)`)
whose powers reproduce the projection of `calculate_expected_growth` on
days 0 to 365: the values at days 1 and 2 already contradict any geometric
progression, so the projection does not compound geometrically. -/
theorem calculate_expected_growth_not_geometric :
    ¬ ∃ df : ℝ, ∀ k : ℕ, k ≤ 365 →
      ((calculate_expected_growth 100 (k : ℚ) : ℚ) : ℝ) = 100 * df ^ k := by
  rintro ⟨df, h⟩
  have h1 := h 1 (by norm_num)
  have h2 := h 2 (by norm_num)
  have e1 : ((calculate_expected_growth 100 ((1 : ℕ) : ℚ) : ℚ) : ℝ) = 36508 / 365 := by
    norm_num [calculate_expected_growth]
  have e2 : ((calculate_expected_growth 100 ((2 : ℕ) : ℚ) : ℚ) : ℝ) = 36516 / 365 := by
    norm_num [calculate_expected_growth]
  rw [e1, pow_one] at h1
  rw [e2] at h2
  have hdf : df = 9127 / 9125 := by linarith
  rw [hdf] at h2
  norm_num at h2

/-- C1 amended: the projection of `calculate_expected_growth` is linear,
not geometric: day 0 gives the starting value, day 365 gives exactly
`p * 1.08`, and consecutive days always differ by the constant absolute
increment `p * 0.08 / 365`. -/
theorem calculate_expected_growth_linear (p : ℚ) (k : ℕ) :
    calculate_expected_growth p 0 = p ∧
    calculate_expected_growth p 365 = p * (27 / 25) ∧
    calculate_expected_growth p ((k : ℚ) + 1) - calculate_expected_growth p (k : ℚ) =
      p * (2 / 25) / 365 := by
  refine ⟨by norm_num [calculate_expected_growth], by norm_num [calculate_expected_growth], ?_⟩
  simp only [calculate_expected_growth]
  ring

/-- C2 counterexample: the dashboard feeds the projection an identical
expected-price trace for a doubling series and for a flat series (the code
never reads the history), while the spec formula `exp(mean(logret)*252)-1`
distinguishes the two series; so the rate used is not computed from the
series by that formula. -/
theorem projection_rate_not_from_series_cex :
    dashboard_expected_prices [100, 200] 100 = dashboard_expected_prices [100, 100] 100 ∧
    annualized_return [(100 : ℝ), 200] ≠ annualized_return [(100 : ℝ), 100] := by
  refine ⟨rfl, ?_⟩
  have hlog : (0 : ℝ) < Real.log 2 := Real.log_pos (by norm_num)
  simp only [annualized_return, logrets]
  norm_num [Real.exp_eq_one_iff]
  intro hc
  have he : Real.exp (Real.log 2 * 252) = 1 := by linarith
  rw [Real.exp_eq_one_iff] at he
  have hz : Real.log 2 = 0 := by linarith
  linarith

/-- C2 amended: the rate fed into the projection is the hard coded
constant 0.08: the dashboard trace is the same for any two histories, and
each of its 13 points is `p * (1 + 0.08 * (offset / 365))` — a function of
the current price and the day offset only. -/
theorem dashboard_rate_constant (h1 h2 : List ℚ) (p : ℚ) :
    dashboard_expected_prices h1 p = dashboard_expected_prices h2 p ∧
    dashboard_expected_prices h1 p =
      (List.range' 0 13 30).map (fun i : ℕ => p * (1 + (2 / 25) * ((i : ℚ) / 365))) := by
  refine ⟨rfl, ?_⟩
  norm_num [dashboard_expected_prices, calculate_expected_growth]

/-- C3 counterexample: the spec-modelled estimator is undefined on a
one-point series (fewer than 2 valid points) and returns an actual zero
on the flat two-point series, yet the code produces for the one-point
frame ending at date 5 exactly the same defined projection trace (same
anchor dates and same expected prices) as for the flat two-point frame
ending at the same date, so no caller can observe an insufficient-data
result distinct from a zero percent return there. -/
theorem insufficient_data_not_observable_cex :
    annualized_return [(100 : ℝ)] = none ∧
    annualized_return [(100 : ℝ), 100] = some 0 ∧
    dashboard_projection_trace ⟨[5], [100]⟩ 100 =
      dashboard_projection_trace ⟨[4, 5], [100, 100]⟩ 100 := by
  refine ⟨by simp [annualized_return], ?_, ?_⟩
  · norm_num [annualized_return, logrets]
  · rfl

/-- C3 amended: the code has no insufficient-data result: for every
one-point series (fewer than two points, but nonempty, so that line 303
succeeds) the dashboard projection trace is defined and coincides with
the trace for the flat two-point series ending at the same date — the
expected prices never read the price column at all — so callers cannot
observe any difference from an actual zero percent return; for the empty
series the dashboard instead raises an uncaught IndexError at line 303
(an error, not a distinct undefined result), modelled as the `none` trace. -/
theorem short_series_no_undefined_result (s : Series) (p : ℚ) (d : ℤ)
    (hd : s.dates = [d]) (hp : s.prices.length = 1) :
    dashboard_projection_trace s p = dashboard_projection_trace ⟨[d - 1, d], [100, 100]⟩ p ∧
    dashboard_projection_trace s p ≠ none ∧
    dashboard_projection_trace ⟨[], ([] : List ℚ)⟩ p = none := by
  refine ⟨?_, ?_, rfl⟩
  · show dashboard_projection_trace s p = _
    unfold dashboard_projection_trace
    rw [hd]
    rfl
  · unfold dashboard_projection_trace
    rw [hd]
    simp

/-- Witness for C3 amended at a concrete input: the one-point series with
date 5 and price 100, current price 100. -/
theorem short_series_no_undefined_result_witness :
    (Series.mk [5] [100]).dates = [(5 : ℤ)] ∧
    (Series.mk [5] [100]).prices.length = 1 ∧
    (dashboard_projection_trace ⟨[5], [100]⟩ 100 =
        dashboard_projection_trace ⟨[5 - 1, 5], [100, 100]⟩ 100 ∧
      dashboard_projection_trace ⟨[5], [100]⟩ 100 ≠ none ∧
      dashboard_projection_trace ⟨[], ([] : List ℚ)⟩ 100 = none) :=
  ⟨rfl, rfl, short_series_no_undefined_result ⟨[5], [100]⟩ 100 5 rfl rfl⟩

/-- C4 counterexample: a concrete run in which the parsed history ends at
price 100 while the separately fetched current quote is 105; the first
point of the projection trace is 105, not the last historical point 100,
so the projected curve does not start where the historical curve ends. -/
theorem projection_start_mismatch_cex :
    (get_stock_history (fun _ => 0) 0 "IVV" 30
        (Except.ok (some [(2, 100), (1, 95)]))).prices.getLast? = some 100 ∧
    (dashboard_expected_prices
        (get_stock_history (fun _ => 0) 0 "IVV" 30
          (Except.ok (some [(2, 100), (1, 95)]))).prices
        (get_stock_price (fun _ => 0) "IVV" (Except.ok (some 105)))).head? = some 105 ∧
    (105 : ℚ) ≠ 100 := by
  refine ⟨?_, ?_, by norm_num⟩
  · norm_num [get_stock_history, parse_history]
  · show (dashboard_expected_prices
        (get_stock_history (fun _ => 0) 0 "IVV" 30
          (Except.ok (some [(2, 100), (1, 95)]))).prices (105 : ℚ)).head? = some 105
    have hh : (dashboard_expected_prices
        (get_stock_history (fun _ => 0) 0 "IVV" 30
          (Except.ok (some [(2, 100), (1, 95)]))).prices (105 : ℚ)).head? =
        some (calculate_expected_growth 105 0) := rfl
    rw [hh]
    norm_num [calculate_expected_growth]

/-- C4 amended: the first point of the projection equals the separately
fetched current price exactly (`calculate_expected_growth p 0 = p`); it
equals the last historical point only when that quote happens to coincide
with the last value of the history series. -/
theorem projection_day_zero_eq_current_price (h : List ℚ) (p : ℚ) :
    (dashboard_expected_prices h p).head? = some (calculate_expected_growth p 0) ∧
    calculate_expected_growth p 0 = p :=
  ⟨rfl, by norm_num [calculate_expected_growth]⟩

/-- C5 counterexample: on a response body without the daily time-series
key the code returns the synthetic mock series for the symbol, which is
not empty, so the history fetch does not return an empty series on a
malformed or missing body. -/
theorem malformed_response_not_empty_cex :
    get_stock_history (fun _ => 0) 0 "AAPL" 2 (Except.ok none) =
      generate_mock_history (fun _ => 0) 0 "AAPL" 2 ∧
    (generate_mock_history (fun _ => 0) 0 "AAPL" 2).prices ≠ [] :=
  ⟨rfl, generate_mock_history_prices_ne_nil (fun _ => 0) 0 "AAPL" 2⟩

/-- C5 amended: on a malformed or missing response body (missing
time-series key, or any raised parse or network exception)
`get_stock_history` returns the synthetic mock series for the symbol — a
soft fail with substitute data, never an error, but a nonempty series
rather than an empty one. -/
theorem malformed_response_yields_mock_series (hv : String → ℤ) (now : ℤ) (symbol : String)
    (days : ℕ) :
    get_stock_history hv now symbol days (Except.ok none) =
      generate_mock_history hv now symbol days ∧
    get_stock_history hv now symbol days (Except.error ()) =
      generate_mock_history hv now symbol days ∧
    (generate_mock_history hv now symbol days).prices ≠ [] :=
  ⟨rfl, rfl, generate_mock_history_prices_ne_nil hv now symbol days⟩

/-- C6 counterexample: no boolean tag on returned series can mark exactly
the synthetic ones, because a well formed live response can produce a
value identical to a synthetic series: with all hash values 100 the mock
walk for AAPL over one day is flat at 185.50, and a live response holding
those same two points parses to the very same series. -/
theorem synthetic_series_untagged_cex :
    ¬ ∃ tag : Series → Bool,
      (∀ hv now symbol days, tag (generate_mock_history hv now symbol days) = true) ∧
      (∀ hv now symbol days entries,
        tag (get_stock_history hv now symbol days (Except.ok (some entries))) = false) := by
  rintro ⟨tag, hmock, hlive⟩
  have hbase : get_stock_price_mock (fun _ => 100) "AAPL" = 371 / 2 := by
    simp +decide [get_stock_price_mock, STOCK_SYMBOLS, TECH_STOCKS, List.find?]
    norm_num
  have hcoll : get_stock_history (fun _ => 100) 30 "AAPL" 90
      (Except.ok (some [(30, 371 / 2), (29, 371 / 2)])) =
      generate_mock_history (fun _ => 100) 30 "AAPL" 1 := by
    apply Series.ext
    · show (parse_history [(30, 371 / 2), (29, 371 / 2)] 90).dates =
        (generate_mock_history (fun _ => 100) 30 "AAPL" 1).dates
      rw [generate_mock_history_dates]
      norm_num [parse_history, mock_dates, List.range_succ]
    · show (parse_history [(30, 371 / 2), (29, 371 / 2)] 90).prices =
        (generate_mock_history (fun _ => 100) 30 "AAPL" 1).prices
      rw [generate_mock_history_prices, hbase]
      norm_num [parse_history, List.range_succ, mock_price_at, max_def]
  have h1 := hmock (fun _ => 100) 30 "AAPL" 1
  have h2 := hlive (fun _ => 100) 30 "AAPL" 90 [(30, 371 / 2), (29, 371 / 2)]
  rw [hcoll, h1] at h2
  simp at h2

/-- C6 amended: the synthetic series carries no tag at all: it is a plain
(dates, prices) series of exactly the shape of live data, and for every
synthetic series some well formed live response parses to the identical
value, so callers cannot distinguish synthetic from live data by
inspecting the returned series. -/
theorem synthetic_series_indistinguishable (hv : String → ℤ) (now : ℤ) (symbol : String)
    (days : ℕ) :
    ∃ entries, get_stock_history hv now symbol (days + 1) (Except.ok (some entries)) =
      generate_mock_history hv now symbol days := by
  refine ⟨((generate_mock_history hv now symbol days).dates.zip
    (generate_mock_history hv now symbol days).prices).reverse, ?_⟩
  have hd : (generate_mock_history hv now symbol days).dates.length = days + 1 := by
    rw [generate_mock_history_dates, mock_dates_length]
  have hp : (generate_mock_history hv now symbol days).prices.length = days + 1 :=
    generate_mock_history_prices_length hv now symbol days
  have hlen : (((generate_mock_history hv now symbol days).dates.zip
      (generate_mock_history hv now symbol days).prices).reverse).length ≤ days + 1 := by
    rw [List.length_reverse, List.length_zip, hd, hp]
    simp
  show parse_history (((generate_mock_history hv now symbol days).dates.zip
    (generate_mock_history hv now symbol days).prices).reverse) (days + 1) =
    generate_mock_history hv now symbol days
  unfold parse_history
  rw [List.take_of_length_le hlen]
  apply Series.ext
  · show (((generate_mock_history hv now symbol days).dates.zip
      (generate_mock_history hv now symbol days).prices).reverse.map Prod.fst).reverse = _
    rw [List.map_reverse, List.reverse_reverse, List.map_fst_zip _ _ (by rw [hd, hp])]
  · show (((generate_mock_history hv now symbol days).dates.zip
      (generate_mock_history hv now symbol days).prices).reverse.map Prod.snd).reverse = _
    rw [List.map_reverse, List.reverse_reverse, List.map_snd_zip _ _ (by rw [hd, hp])]

/-- C9 counterexample: a well formed response whose daily time series is
the empty object makes `get_stock_history` return the empty series, so the
function does not always return a nonempty series. -/
theorem empty_time_series_gives_empty_history_cex :
    (get_stock_history (fun _ => 0) 0 "AAPL" 30 (Except.ok (some []))).prices = [] ∧
    (get_stock_history (fun _ => 0) 0 "AAPL" 30 (Except.ok (some []))).dates = [] :=
  ⟨rfl, rfl⟩

/-- C9 amended: the fetchers are total and fall back to mock data: on a
raised exception or a missing body both return mock values (a mock price,
respectively the nonempty synthetic series); but with a well formed
response the parsed series is empty exactly when the requested day count
is zero or the response time series itself is empty. -/
theorem fetchers_total_with_mock_fallback (hv : String → ℤ) (now : ℤ) (symbol : String)
    (days : ℕ) (entries : List (ℤ × ℚ)) :
    get_stock_price hv symbol (Except.error ()) = get_stock_price_mock hv symbol ∧
    get_stock_price hv symbol (Except.ok none) = get_stock_price_mock hv symbol ∧
    get_stock_history hv now symbol days (Except.error ()) =
      generate_mock_history hv now symbol days ∧
    (generate_mock_history hv now symbol days).prices ≠ [] ∧
    ((get_stock_history hv now symbol days (Except.ok (some entries))).prices = [] ↔
      days = 0 ∨ entries = []) := by
  refine ⟨rfl, rfl, rfl, generate_mock_history_prices_ne_nil hv now symbol days, ?_⟩
  show ((entries.take days).map Prod.snd).reverse = [] ↔ days = 0 ∨ entries = []
  rw [List.reverse_eq_nil_iff, List.map_eq_nil_iff, List.take_eq_nil_iff]

end Portfolio
